import Mathlib

/-!
Verification of the storefront's authentication and session engine.

The admin surface (credential record, lockout policy, session lifecycle,
login/setup gateway) and the customer surface (user database, signup/login,
session lifecycle) are embedded as pure functions over explicit state
records.  Wall-clock time is passed as an explicit argument now (milliseconds,
as produced by the clock), and every random input of the original code
(salt bytes, session token, generated ids) is passed as an argument.
Key derivation delegates in the source to the platform's PBKDF2 primitive,
which is outside this repository; it is modelled as an arbitrary function
argument derive from (password, base64 salt, iteration count) to the base64
of the derived bits, which captures exactly its determinism.
-/

/-- Lockout record persisted by the admin surface: consecutive failure count
and the end of the current lock window (0 when none was ever set). -/
structure LockoutState where
  count : Nat
  lockUntil : Nat
  deriving DecidableEq

/-- Admin credential record persisted by setupAdmin. -/
structure AuthRecord where
  email : String
  salt : String
  iterations : Nat
  hash : String
  createdAt : Nat
  version : Nat
  deriving DecidableEq

/-- Admin session record. -/
structure Session where
  token : String
  email : String
  createdAt : Nat
  expiresAt : Nat
  lastActivity : Nat
  deriving DecidableEq

/-- The whole persisted state of the admin surface: optional credential
record, lockout record (the stored default is count 0, lockUntil 0), and
optional session. -/
structure AdminState where
  auth : Option AuthRecord
  lockout : LockoutState
  session : Option Session
  deriving DecidableEq

/-- Type of the key-derivation function: password, base64 salt and iteration
count to the base64 rendering of the derived key bits. -/
abbrev DeriveFn := String → String → Nat → String

/-- hashPassword: derives the key for the password with the given salt and
iteration count and packages salt, iterations and base64 hash.  The salt is
random in the source and is passed here as an argument. -/
def hashPassword (derive : DeriveFn) (password salt : String) (iterations : Nat) :
    String × Nat × String :=
  (salt, iterations, derive password salt iterations)

/-- verifyPassword: re-derives with the stored salt and iteration count and
compares the base64 rendering against the stored hash. -/
def verifyPassword (derive : DeriveFn) (password : String) (auth : AuthRecord) : Bool :=
  derive password auth.salt auth.iterations == auth.hash

/-- resetLockout writes the record count 0, lockUntil 0. -/
def resetLockout : LockoutState :=
  { count := 0, lockUntil := 0 }

/-- recordFailure: increments the consecutive failure count; once the new
count reaches 5 it sets lockUntil to now plus min(count - 4, 6) minutes,
otherwise it keeps the previous lockUntil. -/
def recordFailure (now : Nat) (st : LockoutState) : LockoutState :=
  let count := st.count + 1
  if count ≥ 5 then
    { count := count, lockUntil := now + min (count - 4) 6 * 60 * 1000 }
  else
    { count := count, lockUntil := st.lockUntil }

/-- isLockedOut: the lock window is still running, strictly after now. -/
def isLockedOut (now : Nat) (st : LockoutState) : Bool :=
  decide (st.lockUntil > now)

/-- hasAuth: a credential record exists. -/
def hasAuth (st : AdminState) : Bool :=
  st.auth.isSome

/-- isLoggedIn: false with no session; with a session whose expiresAt is
strictly before now, the stale session is removed and false is returned;
otherwise true.  The returned state carries the side effect. -/
def isLoggedIn (now : Nat) (st : AdminState) : Bool × AdminState :=
  match st.session with
  | none => (false, st)
  | some s =>
    if s.expiresAt < now then (false, { st with session := none })
    else (true, st)

/-- refreshSession: no-op without a session; with one, sets expiresAt to
now plus 30 minutes and lastActivity to now, keeping the other fields. -/
def refreshSession (now : Nat) (st : AdminState) : AdminState :=
  match st.session with
  | none => st
  | some s =>
    { st with session := some { s with expiresAt := now + 30 * 60 * 1000, lastActivity := now } }

/-- logout clears the session unconditionally. -/
def logout (st : AdminState) : AdminState :=
  { st with session := none }

/-- Outcome of the admin login and setup operations, mirroring the reason
codes locked, setup-required, invalid, weak and the ok case. -/
inductive LoginResult where
  | ok
  | locked
  | setupRequired
  | invalid
  deriving DecidableEq

/-- login: first the lockout check, then the credential lookup; with a
record present the password is verified and the email compared for strict
equality; success resets the lockout and stores a fresh session (token is
the random token argument), failure records a lockout failure. -/
def login (derive : DeriveFn) (now : Nat) (token email password : String)
    (st : AdminState) : LoginResult × AdminState :=
  if isLockedOut now st.lockout then
    (.locked, st)
  else
    match st.auth with
    | none => (.setupRequired, st)
    | some auth =>
      if verifyPassword derive password auth && email == auth.email then
        (.ok, { st with
                lockout := resetLockout,
                session := some { token := token, email := email, createdAt := now,
                                  expiresAt := now + 30 * 60 * 1000, lastActivity := now } })
      else
        (.invalid, { st with lockout := recordFailure now st.lockout })

/-- Outcome of setupAdmin: ok or the weak-password rejection. -/
inductive SetupResult where
  | ok
  | weak
  deriving DecidableEq

/-- The admin password policy: length at least 8, at least one ASCII letter,
at least one ASCII digit. -/
def strongPassword (password : String) : Bool :=
  decide (password.length ≥ 8) && password.data.any Char.isAlpha
    && password.data.any Char.isDigit

/-- setupAdmin: rejects a weak password without writing; otherwise hashes
the password with a fresh 16-byte salt (passed here as the salt argument)
at 150000 iterations, stores the credential record and resets the lockout. -/
def setupAdmin (derive : DeriveFn) (now : Nat) (salt email password : String)
    (st : AdminState) : SetupResult × AdminState :=
  if strongPassword password then
    let hp := hashPassword derive password salt 150000
    (.ok, { st with
            auth := some { email := email, salt := hp.1, iterations := hp.2.1,
                           hash := hp.2.2, createdAt := now, version := 1 },
            lockout := resetLockout })
  else
    (.weak, st)

/-- Stored password material of a customer record. -/
structure UserPass where
  salt : String
  iterations : Nat
  hash : String
  deriving DecidableEq

/-- A customer record in the users database. -/
structure UserRecord where
  id : String
  name : String
  email : String
  phone : String
  address : String
  pass : UserPass
  deriving DecidableEq

/-- Customer session record (the customer surface keeps no lastActivity). -/
structure UserSession where
  uid : String
  email : String
  createdAt : Nat
  expiresAt : Nat
  deriving DecidableEq

/-- The persisted state of the customer surface: the users database and the
optional session. -/
structure UserState where
  db : List UserRecord
  session : Option UserSession
  deriving DecidableEq

/-- pbkdf2 of the customer surface: same shape as the admin derivation,
password and salt to the base64 of the derived bits. -/
def pbkdf2 (derive : DeriveFn) (password salt : String) (iterations : Nat) : String :=
  derive password salt iterations

/-- Outcome of signupUser: ok, or the rejection when the email already has
a record (reason exists in the source). -/
inductive SignupResult where
  | ok
  | alreadyExists
  deriving DecidableEq

/-- signupUser: rejects when some stored record has the same email up to
ASCII case; otherwise hashes the password with a fresh random salt (the salt
argument) at 120000 iterations, appends the record to the database and
stores a fresh session expiring 30 minutes from now.  It applies no
password-strength policy of its own. -/
def signupUser (derive : DeriveFn) (now : Nat) (uid salt : String)
    (name email phone address password : String) (st : UserState) :
    SignupResult × UserState :=
  if st.db.any (fun u => u.email.toLower == email.toLower) then
    (.alreadyExists, st)
  else
    let hash := pbkdf2 derive password salt 120000
    let user : UserRecord :=
      { id := uid, name := name, email := email, phone := phone, address := address,
        pass := { salt := salt, iterations := 120000, hash := hash } }
    (.ok, { db := st.db ++ [user],
            session := some { uid := uid, email := email, createdAt := now,
                              expiresAt := now + 30 * 60 * 1000 } })

/-- Outcome of loginUser: ok or a plain failure. -/
inductive UserLoginResult where
  | ok
  | failed
  deriving DecidableEq

/-- loginUser: finds the record by email up to ASCII case, re-derives with
the stored salt and iteration count and compares; on a match it stores a
fresh 30-minute session. -/
def loginUser (derive : DeriveFn) (now : Nat) (email password : String)
    (st : UserState) : UserLoginResult × UserState :=
  match st.db.find? (fun u => u.email.toLower == email.toLower) with
  | none => (.failed, st)
  | some user =>
    let computed := pbkdf2 derive password user.pass.salt user.pass.iterations
    if computed != user.pass.hash then
      (.failed, st)
    else
      (.ok, { st with
              session := some { uid := user.id, email := user.email, createdAt := now,
                                expiresAt := now + 30 * 60 * 1000 } })

/-- isUserLoggedIn: true exactly when a session is stored and its expiresAt
is strictly after now; it touches nothing. -/
def isUserLoggedIn (now : Nat) (st : UserState) : Bool :=
  match st.session with
  | none => false
  | some s => decide (s.expiresAt > now)

/-- refreshUserSession: no-op without a session; with one, sets expiresAt to
now plus 30 minutes, keeping the other fields. -/
def refreshUserSession (now : Nat) (st : UserState) : UserState :=
  match st.session with
  | none => st
  | some s => { st with session := some { s with expiresAt := now + 30 * 60 * 1000 } }

/-- A sample derive function used to evaluate the model on concrete inputs. -/
def demoDerive (password salt : String) (iterations : Nat) : String :=
  password ++ "#" ++ salt ++ "#" ++ toString iterations

/-- Claim C1: recordFailure increments the consecutive-failure count, and when
the new count n is at least 5 it sets the lock window to exactly
min(n - 4, 6) minutes from now: exactly 1 minute at the 5th failure, exactly
6 minutes at the 10th, and never more than 6 minutes past the 10th; with a
new count below 5 the previous lockUntil is kept, so no lock is set. -/
theorem recordFailure_backoff (now : Nat) (st : LockoutState) :
    (recordFailure now st).count = st.count + 1 ∧
    (st.count + 1 ≥ 5 →
      (recordFailure now st).lockUntil = now + min (st.count + 1 - 4) 6 * 60 * 1000) ∧
    (st.count = 4 → (recordFailure now st).lockUntil = now + 1 * 60 * 1000) ∧
    (st.count = 9 → (recordFailure now st).lockUntil = now + 6 * 60 * 1000) ∧
    (st.count + 1 > 10 → (recordFailure now st).lockUntil ≤ now + 6 * 60 * 1000) ∧
    (st.count + 1 < 5 → (recordFailure now st).lockUntil = st.lockUntil) := by
  refine ⟨?_, ?_, ?_, ?_, ?_, ?_⟩
  · by_cases h : st.count + 1 ≥ 5 <;> simp [recordFailure, h]
  · intro h
    simp [recordFailure, h]
  · intro h
    simp [recordFailure, h]
  · intro h
    simp [recordFailure, h]
  · intro h
    have h5 : st.count + 1 ≥ 5 := by omega
    simp [recordFailure, h5]
    omega
  · intro h
    have h5 : ¬ st.count + 1 ≥ 5 := by omega
    simp [recordFailure, h5]

/-- Witness for C1: at the 5th failure (previous count 4) taken at time
1000, the lock window ends exactly one minute later. -/
theorem recordFailure_backoff_witness :
    (recordFailure 1000 { count := 4, lockUntil := 0 }).lockUntil = 1000 + 1 * 60 * 1000 :=
  (recordFailure_backoff 1000 { count := 4, lockUntil := 0 }).2.2.1 rfl

/-- Claim C2: while the lock window is active (lockUntil strictly after now),
login answers locked and leaves the whole state unchanged, so failureCount
and lockUntil are untouched and no session is written; moreover the outcome
and the resulting state do not depend on the credential record, since the
lockout check precedes the credential lookup. -/
theorem login_locked_rejects_immediately (derive : DeriveFn) (now : Nat)
    (token email password : String) (st : AdminState)
    (h : st.lockout.lockUntil > now) :
    login derive now token email password st = (.locked, st) ∧
    ∀ a : Option AuthRecord,
      login derive now token email password { st with auth := a } =
        (.locked, { st with auth := a }) := by
  constructor
  · simp [login, isLockedOut, h]
  · intro a
    simp [login, isLockedOut, h]

/-- Witness for C2: a concrete state locked until 100, probed at time 50. -/
theorem login_locked_rejects_immediately_witness :
    login demoDerive 50 "tok" "a@x" "pw"
        { auth := none, lockout := { count := 5, lockUntil := 100 }, session := none } =
      (LoginResult.locked,
        { auth := none, lockout := { count := 5, lockUntil := 100 }, session := none }) :=
  (login_locked_rejects_immediately demoDerive 50 "tok" "a@x" "pw"
    { auth := none, lockout := { count := 5, lockUntil := 100 }, session := none }
    (by decide)).1

/-- Counterexample to C3: a session whose expiry (5) has long passed by
now = 1000000 is still extended by refreshSession, and isLoggedIn becomes
true again afterwards — the refresh of a logically expired session that is
still in storage is not a no-op. -/
theorem refreshSession_revives_expired_cex :
    ((5 : Nat) < 1000000) ∧
    refreshSession 1000000
        { auth := none, lockout := { count := 0, lockUntil := 0 },
          session := some { token := "t", email := "e", createdAt := 0,
                            expiresAt := 5, lastActivity := 0 } } ≠
      { auth := none, lockout := { count := 0, lockUntil := 0 },
        session := some { token := "t", email := "e", createdAt := 0,
                          expiresAt := 5, lastActivity := 0 } } ∧
    (isLoggedIn 1000000 (refreshSession 1000000
        { auth := none, lockout := { count := 0, lockUntil := 0 },
          session := some { token := "t", email := "e", createdAt := 0,
                            expiresAt := 5, lastActivity := 0 } })).1 = true := by
  refine ⟨by decide, by decide, by decide⟩

/-- Claim C3 as amended: refresh is a no-op exactly when no session is
stored; when any session is stored — still valid or already logically
expired — it sets expiresAt to now plus 30 minutes (the admin surface also
sets lastActivity to now; the customer surface keeps its other fields),
so an expired-but-present session is revived rather than left invalid. -/
theorem refreshSession_behavior (now : Nat) (st : AdminState) (ust : UserState) :
    (st.session = none → refreshSession now st = st) ∧
    (∀ s, st.session = some s →
      refreshSession now st =
        { st with session := some { s with expiresAt := now + 30 * 60 * 1000,
                                           lastActivity := now } }) ∧
    (ust.session = none → refreshUserSession now ust = ust) ∧
    (∀ s, ust.session = some s →
      refreshUserSession now ust =
        { ust with session := some { s with expiresAt := now + 30 * 60 * 1000 } }) := by
  refine ⟨?_, ?_, ?_, ?_⟩
  · intro h
    simp [refreshSession, h]
  · intro s h
    simp [refreshSession, h]
  · intro h
    simp [refreshUserSession, h]
  · intro s h
    simp [refreshUserSession, h]

/-- Witness for C3 (amended): refreshing a concrete stored session at time
100 moves its expiry to 100 plus 30 minutes and its lastActivity to 100. -/
theorem refreshSession_behavior_witness :
    refreshSession 100
        { auth := none, lockout := { count := 0, lockUntil := 0 },
          session := some { token := "t", email := "e", createdAt := 7,
                            expiresAt := 50, lastActivity := 7 } } =
      { auth := none, lockout := { count := 0, lockUntil := 0 },
        session := some { token := "t", email := "e", createdAt := 7,
                          expiresAt := 100 + 30 * 60 * 1000, lastActivity := 100 } } :=
  (refreshSession_behavior 100
      { auth := none, lockout := { count := 0, lockUntil := 0 },
        session := some { token := "t", email := "e", createdAt := 7,
                          expiresAt := 50, lastActivity := 7 } }
      { db := [], session := none }).2.1
    { token := "t", email := "e", createdAt := 7, expiresAt := 50, lastActivity := 7 } rfl

/-- Counterexample to C4: at the exact boundary expiresAt = now = 500 the
admin isLoggedIn still answers true — the source tests expiresAt
strictly-less-than now, while the claim requires false whenever
expiresAt ≤ now. -/
theorem isLoggedIn_boundary_cex :
    ((500 : Nat) ≤ 500) ∧
    (isLoggedIn 500
        { auth := none, lockout := { count := 0, lockUntil := 0 },
          session := some { token := "t", email := "e", createdAt := 0,
                            expiresAt := 500, lastActivity := 0 } }).1 = true := by
  refine ⟨by decide, by decide⟩

/-- Claim C4 as amended: the admin isLoggedIn answers false exactly when no
session is stored or the stored expiresAt is strictly before now; on that
expiry path the stale session is deleted, and otherwise the state is left
unchanged.  The customer isUserLoggedIn answers false exactly when no
session is stored or expiresAt ≤ now, and being a pure query it deletes
nothing. -/
theorem isLoggedIn_spec (now : Nat) (st : AdminState) (ust : UserState) :
    ((isLoggedIn now st).1 = false ↔
      st.session = none ∨ ∃ s, st.session = some s ∧ s.expiresAt < now) ∧
    (∀ s, st.session = some s → s.expiresAt < now →
      (isLoggedIn now st).2 = { st with session := none }) ∧
    (∀ s, st.session = some s → now ≤ s.expiresAt → (isLoggedIn now st).2 = st) ∧
    (isUserLoggedIn now ust = false ↔
      ust.session = none ∨ ∃ s, ust.session = some s ∧ s.expiresAt ≤ now) := by
  refine ⟨?_, ?_, ?_, ?_⟩
  · match h : st.session with
    | none => simp [isLoggedIn, h]
    | some s =>
      by_cases he : s.expiresAt < now
      · simp [isLoggedIn, h, he]
      · simp [isLoggedIn, h, he]
  · intro s h he
    simp [isLoggedIn, h, he]
  · intro s h he
    have he2 : ¬ s.expiresAt < now := by omega
    simp [isLoggedIn, h, he2]
  · match h : ust.session with
    | none => simp [isUserLoggedIn, h]
    | some s =>
      by_cases he : s.expiresAt > now
      · simp [isUserLoggedIn, h, he]
      · simp [isUserLoggedIn, h, he]
        omega

/-- Witness for C4 (amended): a concrete session expired at 400, probed at
500, is deleted by the admin isLoggedIn call. -/
theorem isLoggedIn_spec_witness :
    (isLoggedIn 500
        { auth := none, lockout := { count := 0, lockUntil := 0 },
          session := some { token := "t", email := "e", createdAt := 0,
                            expiresAt := 400, lastActivity := 0 } }).2 =
      { auth := none, lockout := { count := 0, lockUntil := 0 }, session := none } :=
  (isLoggedIn_spec 500
      { auth := none, lockout := { count := 0, lockUntil := 0 },
        session := some { token := "t", email := "e", createdAt := 0,
                          expiresAt := 400, lastActivity := 0 } }
      { db := [], session := none }).2.1
    { token := "t", email := "e", createdAt := 0, expiresAt := 400, lastActivity := 0 }
    rfl (by decide)

/-- Counterexample to C5: the all-digit password 12345678 is weak under the
stated policy (no alphabetic character), yet the customer signup accepts it
and writes a credential record for it — signupUser applies no password
policy at all. -/
theorem signupUser_accepts_weak_cex :
    strongPassword "12345678" = false ∧
    (signupUser demoDerive 0 "u1" "s1" "nm" "e@x" "ph" "ad" "12345678"
        { db := [], session := none }).1 = SignupResult.ok ∧
    (signupUser demoDerive 0 "u1" "s1" "nm" "e@x" "ph" "ad" "12345678"
        { db := [], session := none }).2.db ≠ [] := by
  refine ⟨by decide, by decide, by decide⟩

/-- Claim C5 as amended: the admin setup rejects with the weak outcome and
writes nothing whenever the password is shorter than 8 characters or has no
ASCII letter or no ASCII digit, and accepts any password meeting all three
conditions; the customer signupUser enforces no password policy — for an
unused email it accepts every password (its form layer separately rejects
only passwords shorter than 8 characters, without the letter and digit
requirements). -/
theorem password_policy_spec (derive : DeriveFn) (now : Nat)
    (salt email password uid name phone address : String)
    (st : AdminState) (ust : UserState) :
    (strongPassword password = true ↔
      8 ≤ password.length ∧ (∃ c ∈ password.data, c.isAlpha = true) ∧
        ∃ c ∈ password.data, c.isDigit = true) ∧
    (strongPassword password = false →
      setupAdmin derive now salt email password st = (.weak, st)) ∧
    (strongPassword password = true →
      (setupAdmin derive now salt email password st).1 = .ok) ∧
    ((ust.db.any fun u => u.email.toLower == email.toLower) = false →
      (signupUser derive now uid salt name email phone address password ust).1 =
        SignupResult.ok) := by
  refine ⟨?_, ?_, ?_, ?_⟩
  · simp [strongPassword, List.any_eq_true, and_assoc]
  · intro h
    simp [setupAdmin, h]
  · intro h
    simp [setupAdmin, h]
  · intro h
    simp [signupUser, h]

/-- Witness for C5 (amended): the 5-character password short is rejected by
the admin setup with the weak outcome and the state is unchanged. -/
theorem password_policy_spec_witness :
    setupAdmin demoDerive 0 "s" "a@x" "short"
        { auth := none, lockout := { count := 0, lockUntil := 0 }, session := none } =
      (SetupResult.weak,
        { auth := none, lockout := { count := 0, lockUntil := 0 }, session := none }) :=
  (password_policy_spec demoDerive 0 "s" "a@x" "short" "u" "n" "p" "ad"
      { auth := none, lockout := { count := 0, lockUntil := 0 }, session := none }
      { db := [], session := none }).2.1 (by decide)

/-- Counterexample to C6: setupAdmin never checks whether a credential
record already exists — called again with a strong password over an
existing record, it succeeds and replaces the stored record. -/
theorem setupAdmin_overwrites_cex :
    (setupAdmin demoDerive 99 "s1" "new@x" "abcd1234"
        { auth := some { email := "old@x", salt := "s0", iterations := 150000,
                         hash := "h0", createdAt := 0, version := 1 },
          lockout := { count := 0, lockUntil := 0 }, session := none }).1 =
      SetupResult.ok ∧
    (setupAdmin demoDerive 99 "s1" "new@x" "abcd1234"
        { auth := some { email := "old@x", salt := "s0", iterations := 150000,
                         hash := "h0", createdAt := 0, version := 1 },
          lockout := { count := 0, lockUntil := 0 }, session := none }).2.auth ≠
      some { email := "old@x", salt := "s0", iterations := 150000,
             hash := "h0", createdAt := 0, version := 1 } := by
  refine ⟨by decide, by decide⟩

/-- Claim C6 as amended: the customer signup with an email that already has
a record (compared up to ASCII case) returns the exists outcome and leaves
the state, record included, unchanged; the admin setupAdmin itself is not
one-shot — with any strong password it overwrites whatever record is
stored, and one-shot behaviour exists only because its sole caller guards
the call behind hasAuth. -/
theorem existing_record_protection (derive : DeriveFn) (now : Nat)
    (uid salt name email phone address password : String)
    (ust : UserState) (st : AdminState) :
    ((ust.db.any fun u => u.email.toLower == email.toLower) = true →
      signupUser derive now uid salt name email phone address password ust =
        (SignupResult.alreadyExists, ust)) ∧
    (strongPassword password = true →
      (setupAdmin derive now salt email password st).2.auth =
        some { email := email, salt := salt, iterations := 150000,
               hash := derive password salt 150000, createdAt := now, version := 1 }) := by
  constructor
  · intro h
    simp [signupUser, h]
  · intro h
    simp [setupAdmin, h, hashPassword]

/-- Witness for C6 (amended): signing up again with the stored email in a
different ASCII case returns the exists outcome and changes nothing. -/
theorem existing_record_protection_witness :
    signupUser demoDerive 5 "u2" "s2" "nm" "e@x" "ph" "ad" "pw"
        { db := [{ id := "u1", name := "nm", email := "e@x", phone := "ph",
                   address := "ad",
                   pass := { salt := "s", iterations := 120000, hash := "h" } }],
          session := none } =
      (SignupResult.alreadyExists,
        { db := [{ id := "u1", name := "nm", email := "e@x", phone := "ph",
                   address := "ad",
                   pass := { salt := "s", iterations := 120000, hash := "h" } }],
          session := none }) :=
  (existing_record_protection demoDerive 5 "u2" "s2" "nm" "e@x" "ph" "ad" "pw"
      { db := [{ id := "u1", name := "nm", email := "e@x", phone := "ph",
                 address := "ad",
                 pass := { salt := "s", iterations := 120000, hash := "h" } }],
        session := none }
      { auth := none, lockout := { count := 0, lockUntil := 0 }, session := none }).1
    (by simp)

/-- Claim C7: whenever admin login succeeds — which is possible from any
prior lockout state whose window does not lie strictly in the future,
including the very instant the window expires — the resulting lockout is
count 0, lockUntil 0 and a fresh 30-minute session is stored. -/
theorem login_success_resets_lockout (derive : DeriveFn) (now : Nat)
    (token email password : String) (st : AdminState)
    (h : (login derive now token email password st).1 = LoginResult.ok) :
    (login derive now token email password st).2.lockout = { count := 0, lockUntil := 0 } ∧
    (login derive now token email password st).2.session =
      some { token := token, email := email, createdAt := now,
             expiresAt := now + 30 * 60 * 1000, lastActivity := now } := by
  by_cases hl : isLockedOut now st.lockout = true
  · simp [login, hl] at h
  · rw [Bool.not_eq_true] at hl
    match ha : st.auth with
    | none => simp [login, hl, ha] at h
    | some auth =>
      by_cases hv : (verifyPassword derive password auth && email == auth.email) = true
      · simp [login, hl, ha, hv, resetLockout]
      · rw [Bool.not_eq_true] at hv
        simp [login, hl, ha, hv] at h

/-- Witness for C7: a stored record for a at x with the matching password,
probed at the exact instant now = lockUntil = 40 after 7 failures; login
succeeds, the lockout resets to zero and a fresh session is stored. -/
theorem login_success_resets_lockout_witness :
    (login demoDerive 40 "tok" "a@x" "pw123456"
        { auth := some { email := "a@x", salt := "s", iterations := 150000,
                         hash := demoDerive "pw123456" "s" 150000,
                         createdAt := 0, version := 1 },
          lockout := { count := 7, lockUntil := 40 }, session := none }).2.lockout =
      { count := 0, lockUntil := 0 } ∧
    (login demoDerive 40 "tok" "a@x" "pw123456"
        { auth := some { email := "a@x", salt := "s", iterations := 150000,
                         hash := demoDerive "pw123456" "s" 150000,
                         createdAt := 0, version := 1 },
          lockout := { count := 7, lockUntil := 40 }, session := none }).2.session =
      some { token := "tok", email := "a@x", createdAt := 40,
             expiresAt := 40 + 30 * 60 * 1000, lastActivity := 40 } :=
  login_success_resets_lockout demoDerive 40 "tok" "a@x" "pw123456"
    { auth := some { email := "a@x", salt := "s", iterations := 150000,
                     hash := demoDerive "pw123456" "s" 150000,
                     createdAt := 0, version := 1 },
      lockout := { count := 7, lockUntil := 40 }, session := none }
    (by decide)

/-- Claim C8: the derivation argument is by construction a deterministic
function of password, salt and iteration count, and verification
round-trips creation: a record whose stored material comes from
hashPassword on password p verifies p, and rejects every password whose
derived key differs from the one stored for p. -/
theorem verifyPassword_roundtrip (derive : DeriveFn) (p q salt : String)
    (iterations : Nat) (email : String) (createdAt version : Nat) :
    verifyPassword derive p
      { email := email, salt := (hashPassword derive p salt iterations).1,
        iterations := (hashPassword derive p salt iterations).2.1,
        hash := (hashPassword derive p salt iterations).2.2,
        createdAt := createdAt, version := version } = true ∧
    (derive q salt iterations ≠ derive p salt iterations →
      verifyPassword derive q
        { email := email, salt := (hashPassword derive p salt iterations).1,
          iterations := (hashPassword derive p salt iterations).2.1,
          hash := (hashPassword derive p salt iterations).2.2,
          createdAt := createdAt, version := version } = false) := by
  constructor
  · simp [verifyPassword, hashPassword]
  · intro hne
    simp [verifyPassword, hashPassword, hne]

/-- Witness for C8: under the sample derivation, the record created for
password pw1 rejects the differently-deriving password pw2. -/
theorem verifyPassword_roundtrip_witness :
    verifyPassword demoDerive "pw2"
      { email := "a@x", salt := (hashPassword demoDerive "pw1" "s" 3).1,
        iterations := (hashPassword demoDerive "pw1" "s" 3).2.1,
        hash := (hashPassword demoDerive "pw1" "s" 3).2.2,
        createdAt := 0, version := 1 } = false :=
  (verifyPassword_roundtrip demoDerive "pw1" "pw2" "s" 3 "a@x" 0 1).2 (by decide)

/-- Claim C9: along a login transition, lockUntil is never lowered — it is
left unchanged, strictly increased, or reset to 0 precisely by a successful
authentication; a recorded failure, which login only reaches once the
previous window has expired (lockUntil at most now), never lowers it; and
the session operations refresh and logout leave the lockout untouched. -/
theorem lockUntil_monotone (derive : DeriveFn) (now : Nat)
    (token email password : String) (st : AdminState) :
    ((login derive now token email password st).2.lockout.lockUntil = st.lockout.lockUntil ∨
     st.lockout.lockUntil < (login derive now token email password st).2.lockout.lockUntil ∨
     ((login derive now token email password st).1 = LoginResult.ok ∧
      (login derive now token email password st).2.lockout.lockUntil = 0)) ∧
    (∀ lst : LockoutState, lst.lockUntil ≤ now →
      lst.lockUntil ≤ (recordFailure now lst).lockUntil) ∧
    (refreshSession now st).lockout = st.lockout ∧
    (logout st).lockout = st.lockout := by
  refine ⟨?_, ?_, ?_, rfl⟩
  · by_cases hl : isLockedOut now st.lockout = true
    · left
      simp [login, hl]
    · have hle : st.lockout.lockUntil ≤ now := by
        simp [isLockedOut] at hl
        omega
      rw [Bool.not_eq_true] at hl
      match ha : st.auth with
      | none =>
        left
        simp [login, hl, ha]
      | some auth =>
        by_cases hv : (verifyPassword derive password auth && email == auth.email) = true
        · right; right
          simp [login, hl, ha, hv, resetLockout]
        · rw [Bool.not_eq_true] at hv
          by_cases hc : st.lockout.count + 1 ≥ 5
          · right; left
            simp [login, hl, ha, hv, recordFailure, hc]
            omega
          · left
            simp [login, hl, ha, hv, recordFailure, hc]
  · intro lst hle
    by_cases hc : lst.count + 1 ≥ 5
    · simp [recordFailure, hc]
      omega
    · simp [recordFailure, hc]
  · match h : st.session with
    | none => simp [refreshSession, h]
    | some s => simp [refreshSession, h]

/-- Witness for C9: a 5th failure recorded at time 10 over a lock that
expired at 7 does not lower lockUntil. -/
theorem lockUntil_monotone_witness :
    ({ count := 4, lockUntil := 7 } : LockoutState).lockUntil ≤
      (recordFailure 10 { count := 4, lockUntil := 7 }).lockUntil :=
  (lockUntil_monotone demoDerive 10 "t" "e" "p"
      { auth := none, lockout := { count := 0, lockUntil := 0 }, session := none }).2.1
    { count := 4, lockUntil := 7 } (by decide)

/-- Claim C10: with a credential record stored and no active lock window,
admin login succeeds exactly when the password verifies against the stored
hash and the supplied email is strictly equal to the stored email; a
non-matching email yields the invalid outcome and records a lockout
failure, exactly as a wrong password does. -/
theorem login_requires_exact_email (derive : DeriveFn) (now : Nat)
    (token email password : String) (st : AdminState) (auth : AuthRecord)
    (ha : st.auth = some auth) (hl : st.lockout.lockUntil ≤ now) :
    ((login derive now token email password st).1 = LoginResult.ok ↔
      verifyPassword derive password auth = true ∧ email = auth.email) ∧
    (email ≠ auth.email →
      login derive now token email password st =
        (LoginResult.invalid, { st with lockout := recordFailure now st.lockout })) := by
  have hlo : isLockedOut now st.lockout = false := by
    simp [isLockedOut]
    omega
  constructor
  · by_cases hv : (verifyPassword derive password auth && email == auth.email) = true
    · have hv2 := hv
      rw [Bool.and_eq_true] at hv2
      simp [login, hlo, ha, hv]
      exact ⟨hv2.1, by simpa using hv2.2⟩
    · rw [Bool.not_eq_true] at hv
      simp [login, hlo, ha, hv]
      rintro h1 h2
      rw [h1, h2] at hv
      simp at hv
  · intro hne
    have hbeq : (email == auth.email) = false := by
      simp [hne]
    have hv : (verifyPassword derive password auth && email == auth.email) = false := by
      simp [hbeq]
    simp [login, hlo, ha, hv]

/-- Witness for C10: the stored record is for a at x; supplying the correct
password with email b at x yields invalid and a recorded failure. -/
theorem login_requires_exact_email_witness :
    login demoDerive 100 "tok" "b@x" "pw123456"
        { auth := some { email := "a@x", salt := "s", iterations := 150000,
                         hash := demoDerive "pw123456" "s" 150000,
                         createdAt := 0, version := 1 },
          lockout := { count := 1, lockUntil := 0 }, session := none } =
      (LoginResult.invalid,
        { auth := some { email := "a@x", salt := "s", iterations := 150000,
                         hash := demoDerive "pw123456" "s" 150000,
                         createdAt := 0, version := 1 },
          lockout := recordFailure 100 { count := 1, lockUntil := 0 },
          session := none }) :=
  (login_requires_exact_email demoDerive 100 "tok" "b@x" "pw123456"
      { auth := some { email := "a@x", salt := "s", iterations := 150000,
                       hash := demoDerive "pw123456" "s" 150000,
                       createdAt := 0, version := 1 },
        lockout := { count := 1, lockUntil := 0 }, session := none }
      { email := "a@x", salt := "s", iterations := 150000,
        hash := demoDerive "pw123456" "s" 150000, createdAt := 0, version := 1 }
      rfl (by decide)).2 (by decide)
